import Mathlib

/-!
Shallow embedding of the fitness-tracker module (`homework.py`).

Python floats are modelled as exact rationals (`ℚ`); fallible operations
(division, the abstract base calorie method, dispatch) return `Except`,
mirroring the exceptions the Python code can raise (`ZeroDivisionError`,
`NotImplementedError`, `ValueError`, and the `TypeError` of a constructor
call with the wrong number of positional arguments).  Field and method
names follow the source, including the source's misspelling `wight` for
the weight attribute.
-/

/-- Runtime faults the Python code can raise during metric computation. -/
inductive PyError where
  | zeroDivisionError : PyError
  | notImplementedError : String → PyError
deriving DecidableEq

/-- Errors `read_package` can produce: an unknown workout code raises
`ValueError`; calling a constructor with the wrong number of positional
arguments raises `TypeError`, modelled as an arity mismatch carrying the
variant class name, the expected argument count and the actual count. -/
inductive ReadError where
  | unknownCode : String → ReadError
  | arityMismatch : String → Nat → Nat → ReadError
deriving DecidableEq

/-- The closed set of workout classes: the abstract base `Training` and the
three concrete subclasses, each carrying its extra constructor fields
(`SportsWalking.height`; `Swimming.length_pool` and `Swimming.count_pool`). -/
inductive Variant where
  | base : Variant
  | running : Variant
  | sportsWalking : ℚ → Variant
  | swimming : ℚ → ℚ → Variant
deriving DecidableEq

/-- A constructed workout instance: the three fields set by
`Training.__init__` plus the variant tag with its extra fields. -/
structure Workout where
  action : ℚ
  duration : ℚ
  wight : ℚ
  variant : Variant
deriving DecidableEq

def M_IN_KM : ℚ := 1000

def MIN_IN_HOUR : ℚ := 60

/-- `LEN_STEP`: 0.65 on `Training` (hence on `Running` and `SportsWalking`),
overridden to 1.38 on `Swimming`. -/
def LEN_STEP : Variant → ℚ
  | .swimming _ _ => 1.38
  | _ => 0.65

def COEFF_CALORIE_RUN_1 : ℚ := 18

def COEFF_CALORIE_RUN_2 : ℚ := 20

def COEFF_CALORIE_WLK_1 : ℚ := 0.035

def COEFF_CALORIE_WLK_2 : ℚ := 0.029

/-- `SportsWalking.POWER`: the exponent 2 applied to the mean speed. -/
def POWER : ℕ := 2

def COEFF_CALORIE_SWM_1 : ℚ := 1.1

def COEFF_CALORIE_SWM_2 : ℚ := 2

/-- Python true division: raises `ZeroDivisionError` on a zero divisor. -/
def pyDiv (a b : ℚ) : Except PyError ℚ :=
  if b = 0 then .error .zeroDivisionError else .ok (a / b)

/-- Python float floor division `a // b`: `⌊a / b⌋` as a float, raising
`ZeroDivisionError` on a zero divisor. -/
def pyFloorDiv (a b : ℚ) : Except PyError ℚ :=
  if b = 0 then .error .zeroDivisionError else .ok ((⌊a / b⌋ : ℤ) : ℚ)

/-- `Training.get_distance`: `action * LEN_STEP / M_IN_KM` (the constant
divisor 1000 is nonzero, so this never faults). -/
def Workout.get_distance (t : Workout) : ℚ :=
  t.action * LEN_STEP t.variant / M_IN_KM

/-- `get_mean_speed`: base formula `get_distance() / duration`; `Swimming`
overrides it with `length_pool * count_pool / M_IN_KM / duration`. -/
def Workout.get_mean_speed (t : Workout) : Except PyError ℚ :=
  match t.variant with
  | .swimming length_pool count_pool =>
      pyDiv (length_pool * count_pool / M_IN_KM) t.duration
  | _ => pyDiv t.get_distance t.duration

/-- `Training.duration_to_min`: `duration * MIN_IN_HOUR`. -/
def Workout.duration_to_min (t : Workout) : ℚ :=
  t.duration * MIN_IN_HOUR

/-- `get_spent_calories`: raises `NotImplementedError` on the base class;
each concrete subclass supplies its own formula (the mean speed is computed
first, so a division fault in it precedes the calorie arithmetic). -/
def Workout.get_spent_calories (t : Workout) : Except PyError ℚ :=
  match t.variant with
  | .base =>
      .error (.notImplementedError
        "В Training функция get_spent_calories не определена.")
  | .running => do
      let v ← t.get_mean_speed
      pure ((COEFF_CALORIE_RUN_1 * v - COEFF_CALORIE_RUN_2) * t.wight
        / M_IN_KM * t.duration_to_min)
  | .sportsWalking height => do
      let v ← t.get_mean_speed
      let q ← pyFloorDiv (v ^ POWER) height
      pure ((COEFF_CALORIE_WLK_1 * t.wight
        + q * COEFF_CALORIE_WLK_2 * t.wight) * t.duration_to_min)
  | .swimming _ _ => do
      let v ← t.get_mean_speed
      pure ((v + COEFF_CALORIE_SWM_1) * COEFF_CALORIE_SWM_2 * t.wight)

/-- `self.__class__.__name__` for each variant. -/
def Variant.className : Variant → String
  | .base => "Training"
  | .running => "Running"
  | .sportsWalking _ => "SportsWalking"
  | .swimming _ _ => "Swimming"

/-- The `InfoMessage` dataclass: display name plus the four derived metrics. -/
structure InfoMessage where
  training_type : String
  duration : ℚ
  distance : ℚ
  speed : ℚ
  calories : ℚ
deriving DecidableEq

/-- Rounding to an integer with ties to even, the rounding Python's string
formatting applies when fixing a value to a given number of decimal places. -/
def roundHalfEven (q : ℚ) : ℤ :=
  let f := ⌊q⌋
  let r := q - f
  if r < 1 / 2 then f
  else if 1 / 2 < r then f + 1
  else if f % 2 = 0 then f else f + 1

/-- Left-pad a fractional part (three decimal digits) with zeros. -/
def pad3 (n : ℕ) : String :=
  if n < 10 then "00" ++ toString n
  else if n < 100 then "0" ++ toString n
  else toString n

/-- The `.3f` format specifier: fixed-point rendering with exactly three
decimal places. -/
def fmt3 (q : ℚ) : String :=
  let n := roundHalfEven (q * 1000)
  let sign := if n < 0 then "-" else ""
  let m := n.natAbs
  sign ++ toString (m / 1000) ++ "." ++ pad3 (m % 1000)

/-- `InfoMessage.get_message`: `MESSAGE.format(**asdict(self))` for the
fixed class template, i.e. the literal segments of `MESSAGE` interleaved
with the fields, each float fixed to three decimal places. -/
def InfoMessage.get_message (m : InfoMessage) : String :=
  "Тип тренировки: " ++ m.training_type
    ++ "; Длительность: " ++ fmt3 m.duration
    ++ " ч.; Дистанция: " ++ fmt3 m.distance
    ++ " км; Ср. скорость: " ++ fmt3 m.speed
    ++ " км/ч; Потрачено ккал: " ++ fmt3 m.calories ++ "."

/-- The template of §4.3 of the spec, stated independently of the source:
the five labelled fields, floats fixed to exactly three decimal places. -/
def spec_render (m : InfoMessage) : String :=
  "Тип тренировки: " ++ m.training_type
    ++ "; Длительность: " ++ fmt3 m.duration
    ++ " ч.; Дистанция: " ++ fmt3 m.distance
    ++ " км; Ср. скорость: " ++ fmt3 m.speed
    ++ " км/ч; Потрачено ккал: " ++ fmt3 m.calories ++ "."

/-- `Training.show_training_info`: builds the `InfoMessage` from the class
name, the duration and the three derived metrics (constructor arguments are
evaluated left to right, so a speed fault precedes a calorie fault). -/
def Workout.show_training_info (t : Workout) : Except PyError InfoMessage := do
  let v ← t.get_mean_speed
  let c ← t.get_spent_calories
  pure ⟨t.variant.className, t.duration, t.get_distance, v, c⟩

/-- `read_package`: the dispatcher.  An unrecognized code raises
`ValueError`; a recognized code's class is called with the data list
unpacked as positional arguments, which raises `TypeError` (arity
mismatch) unless the list length matches the constructor's
positional-parameter count (Swimming 5, Running 3, SportsWalking 4). -/
def read_package (workout_type : String) (data : List ℚ) :
    Except ReadError Workout :=
  if workout_type = "SWM" then
    match data with
    | [a, d, w, lp, cp] => .ok ⟨a, d, w, .swimming lp cp⟩
    | _ => .error (.arityMismatch "Swimming" 5 data.length)
  else if workout_type = "RUN" then
    match data with
    | [a, d, w] => .ok ⟨a, d, w, .running⟩
    | _ => .error (.arityMismatch "Running" 3 data.length)
  else if workout_type = "WLK" then
    match data with
    | [a, d, w, h] => .ok ⟨a, d, w, .sportsWalking h⟩
    | _ => .error (.arityMismatch "SportsWalking" 4 data.length)
  else .error (.unknownCode workout_type)

/-- The Running workout built from the sample package `("RUN", [15000, 1, 75])`. -/
def runT : Workout := ⟨15000, 1, 75, .running⟩

/-- The SportsWalking workout built from `("WLK", [9000, 1, 75, 180])`. -/
def wlkT : Workout := ⟨9000, 1, 75, .sportsWalking 180⟩

/-- The Swimming workout built from `("SWM", [720, 1, 80, 25, 40])`. -/
def swmT : Workout := ⟨720, 1, 80, .swimming 25 40⟩

/-- A Running workout with a negative duration. -/
def negT : Workout := ⟨15000, -1, 75, .running⟩

theorem rhe_one : roundHalfEven ((1 : ℚ) * 1000) = 1000 := by
  norm_num [roundHalfEven]

theorem rhe_dist : roundHalfEven ((0.9936 : ℚ) * 1000) = 994 := by
  norm_num [roundHalfEven]

theorem rhe_cal : roundHalfEven ((336 : ℚ) * 1000) = 336000 := by
  norm_num [roundHalfEven]

theorem fmt3_one : fmt3 1 = "1.000" := by
  simp only [fmt3, rhe_one]
  decide

theorem fmt3_dist : fmt3 0.9936 = "0.994" := by
  simp only [fmt3, rhe_dist]
  decide

theorem fmt3_cal : fmt3 336 = "336.000" := by
  simp only [fmt3, rhe_cal]
  decide

theorem swm_info_eval :
    swmT.show_training_info = .ok ⟨"Swimming", 1, 0.9936, 1, 336⟩ := by
  norm_num [swmT, Workout.show_training_info, Variant.className,
    Workout.get_mean_speed, Workout.get_spent_calories, Workout.get_distance,
    Workout.duration_to_min, LEN_STEP, M_IN_KM, MIN_IN_HOUR, pyDiv,
    COEFF_CALORIE_SWM_1, COEFF_CALORIE_SWM_2,
    Bind.bind, Except.bind, Pure.pure, Except.pure]

theorem swm_msg_eval :
    InfoMessage.get_message ⟨"Swimming", 1, 0.9936, 1, 336⟩ =
      "Тип тренировки: Swimming; Длительность: 1.000 ч.; Дистанция: 0.994 км; Ср. скорость: 1.000 км/ч; Потрачено ккал: 336.000." := by
  simp only [InfoMessage.get_message, fmt3_one, fmt3_dist, fmt3_cal]
  decide

/-- Claim C1: for every recognized code, `read_package` fails with an arity
mismatch naming the variant and the expected count whenever the length of
the data list differs from the constructor's field count (3 for RUN, 4 for
WLK, 5 for SWM); `read_package "RUN" [1, 2]` fails that way, and
`read_package "RUN" [15000, 1, 75]` succeeds, mapping the arguments
positionally onto action, duration, weight. -/
theorem claim_C1 :
    (∀ data : List ℚ, data.length ≠ 3 →
      read_package "RUN" data = .error (.arityMismatch "Running" 3 data.length)) ∧
    (∀ data : List ℚ, data.length ≠ 4 →
      read_package "WLK" data = .error (.arityMismatch "SportsWalking" 4 data.length)) ∧
    (∀ data : List ℚ, data.length ≠ 5 →
      read_package "SWM" data = .error (.arityMismatch "Swimming" 5 data.length)) ∧
    read_package "RUN" [1, 2] = .error (.arityMismatch "Running" 3 2) ∧
    read_package "RUN" [15000, 1, 75] = .ok ⟨15000, 1, 75, .running⟩ := by
  refine ⟨?_, ?_, ?_, rfl, rfl⟩
  · intro data h
    rcases data with _ | ⟨a, _ | ⟨b, _ | ⟨c, _ | ⟨e, rest⟩⟩⟩⟩
    · rfl
    · rfl
    · rfl
    · exact absurd rfl h
    · rfl
  · intro data h
    rcases data with _ | ⟨a, _ | ⟨b, _ | ⟨c, _ | ⟨e, _ | ⟨f, rest⟩⟩⟩⟩⟩
    · rfl
    · rfl
    · rfl
    · rfl
    · exact absurd rfl h
    · rfl
  · intro data h
    rcases data with _ | ⟨a, _ | ⟨b, _ | ⟨c, _ | ⟨e, _ | ⟨f, _ | ⟨g, rest⟩⟩⟩⟩⟩⟩
    · rfl
    · rfl
    · rfl
    · rfl
    · rfl
    · exact absurd rfl h
    · rfl

/-- Witness for C1 at concrete inputs: a four-element RUN package fails with
the arity mismatch naming Running and the expected count 3. -/
theorem claim_C1_witness :
    read_package "RUN" [(1 : ℚ), 2, 3, 4] = .error (.arityMismatch "Running" 3 4) :=
  claim_C1.1 [1, 2, 3, 4] (by decide)

/-- Claim C2 counterexample: on `("RUN", [15000, 1, 75])` the code computes
699.75 kcal, not the 701.775 the claim asserts — the claim's own formula
`(18 * 9.75 - 20) * 75 / 1000 * 60` evaluates to 699.75. -/
theorem claim_C2_cex :
    runT.get_spent_calories = .ok 699.75 ∧
    runT.get_spent_calories ≠ .ok 701.775 := by
  constructor <;>
    norm_num [runT, Workout.get_spent_calories, Workout.get_mean_speed,
      Workout.get_distance, Workout.duration_to_min, LEN_STEP, M_IN_KM,
      MIN_IN_HOUR, pyDiv, COEFF_CALORIE_RUN_1, COEFF_CALORIE_RUN_2,
      Bind.bind, Except.bind, Pure.pure, Except.pure]

/-- Claim C2 (amended): for `("RUN", [15000, 1, 75])` the Running workout
returns distance 9.75, mean speed 9.75, and calories equal to the claimed
expression `(18 * 9.75 - 20) * 75 / 1000 * 60`, whose value is 699.75
(not 701.775 as the claim's numeric evaluation states). -/
theorem claim_C2 :
    runT.get_distance = 9.75 ∧
    runT.get_mean_speed = .ok 9.75 ∧
    runT.get_spent_calories = .ok ((18 * 9.75 - 20) * 75 / 1000 * 60) ∧
    ((18 : ℚ) * 9.75 - 20) * 75 / 1000 * 60 = 699.75 := by
  refine ⟨?_, ?_, ?_, by norm_num⟩ <;>
    norm_num [runT, Workout.get_spent_calories, Workout.get_mean_speed,
      Workout.get_distance, Workout.duration_to_min, LEN_STEP, M_IN_KM,
      MIN_IN_HOUR, pyDiv, COEFF_CALORIE_RUN_1, COEFF_CALORIE_RUN_2,
      Bind.bind, Except.bind, Pure.pure, Except.pure]

/-- Claim C3 counterexample: a Running workout with duration −1 hour has
`duration ≤ 0`, yet `get_mean_speed` succeeds (returning −9.75) instead of
signalling an arithmetic fault: only a zero duration faults. -/
theorem claim_C3_cex :
    negT.duration ≤ 0 ∧ negT.get_mean_speed = .ok (-9.75) := by
  constructor
  · norm_num [negT]
  · norm_num [negT, Workout.get_mean_speed, Workout.get_distance,
      LEN_STEP, M_IN_KM, pyDiv]

/-- Claim C3 (amended): the mean-speed computation (base formula and
Swimming's override alike) raises `ZeroDivisionError` exactly when the
duration is 0; for every nonzero duration — in particular every positive
one, but also negative ones — it succeeds. -/
theorem claim_C3 :
    ∀ t : Workout,
      (t.duration = 0 → t.get_mean_speed = .error .zeroDivisionError) ∧
      (t.duration ≠ 0 → ∃ v, t.get_mean_speed = .ok v) := by
  intro t
  obtain ⟨a, d, w, v⟩ := t
  constructor
  · intro h
    have hd : d = 0 := h
    cases v <;> simp [Workout.get_mean_speed, pyDiv, hd]
  · intro h
    have hd : d ≠ 0 := h
    cases v <;> simp [Workout.get_mean_speed, pyDiv, hd]

/-- Witness for C3 at concrete inputs: a zero-duration Swimming workout
faults with `ZeroDivisionError`; the sample Running workout (duration 1)
succeeds. -/
theorem claim_C3_witness :
    Workout.get_mean_speed ⟨720, 0, 80, .swimming 25 40⟩ = .error .zeroDivisionError ∧
    ∃ v, runT.get_mean_speed = .ok v :=
  ⟨(claim_C3 ⟨720, 0, 80, .swimming 25 40⟩).1 rfl,
   (claim_C3 runT).2 (by norm_num [runT])⟩

/-- Claim C4: the SportsWalking calorie formula is
`(0.035 * w + floorDiv(speed², height) * 0.029 * w) * (duration * 60)`
with floor division in the middle term; on `("WLK", [9000, 1, 75, 180])`
the distance and mean speed are 5.85, the floor division yields 0, and the
calories are 157.5. -/
theorem claim_C4 :
    (∀ a d w h : ℚ, d ≠ 0 → h ≠ 0 →
      Workout.get_spent_calories ⟨a, d, w, .sportsWalking h⟩ =
        .ok ((0.035 * w + (⌊(a * 0.65 / 1000 / d) ^ 2 / h⌋ : ℤ) * 0.029 * w)
          * (d * 60))) ∧
    wlkT.get_distance = 5.85 ∧
    wlkT.get_mean_speed = .ok 5.85 ∧
    ((⌊(5.85 : ℚ) ^ 2 / 180⌋ : ℤ) : ℚ) = 0 ∧
    wlkT.get_spent_calories = .ok 157.5 := by
  refine ⟨?_, ?_, ?_, by norm_num, ?_⟩
  · intro a d w h hd hh
    simp [Workout.get_spent_calories, Workout.get_mean_speed, Workout.get_distance,
      Workout.duration_to_min, pyDiv, pyFloorDiv, LEN_STEP, M_IN_KM, MIN_IN_HOUR,
      POWER, COEFF_CALORIE_WLK_1, COEFF_CALORIE_WLK_2, hd, hh,
      Bind.bind, Except.bind, Pure.pure, Except.pure]
  all_goals
    norm_num [wlkT, Workout.get_spent_calories, Workout.get_mean_speed,
      Workout.get_distance, Workout.duration_to_min, LEN_STEP, M_IN_KM,
      MIN_IN_HOUR, pyDiv, pyFloorDiv, POWER, COEFF_CALORIE_WLK_1,
      COEFF_CALORIE_WLK_2, Bind.bind, Except.bind, Pure.pure, Except.pure]

/-- Witness for C4 at the sample input `("WLK", [9000, 1, 75, 180])`. -/
theorem claim_C4_witness :
    Workout.get_spent_calories ⟨9000, 1, 75, .sportsWalking 180⟩ =
      .ok ((0.035 * 75 + (⌊((9000 : ℚ) * 0.65 / 1000 / 1) ^ 2 / 180⌋ : ℤ) * 0.029 * 75)
        * (1 * 60)) :=
  claim_C4.1 9000 1 75 180 (by norm_num) (by norm_num)

/-- Claim C5: for `("SWM", [720, 1, 80, 25, 40])` the Swimming workout has
distance 0.9936, mean speed 1, calories 336, and its formatted report
message contains the substrings `Длительность: 1.000 ч.` and
`Потрачено ккал: 336.000.`. -/
theorem claim_C5 :
    swmT.get_distance = 0.9936 ∧
    swmT.get_mean_speed = .ok 1 ∧
    swmT.get_spent_calories = .ok 336 ∧
    ∃ m : InfoMessage, swmT.show_training_info = .ok m ∧
      (∃ p q : String, m.get_message = p ++ "Длительность: 1.000 ч." ++ q) ∧
      (∃ p q : String, m.get_message = p ++ "Потрачено ккал: 336.000." ++ q) := by
  refine ⟨?_, ?_, ?_,
    ⟨"Swimming", 1, 0.9936, 1, 336⟩, swm_info_eval,
    ⟨"Тип тренировки: Swimming; ",
     "; Дистанция: 0.994 км; Ср. скорость: 1.000 км/ч; Потрачено ккал: 336.000.",
     by rw [swm_msg_eval]; decide⟩,
    ⟨"Тип тренировки: Swimming; Длительность: 1.000 ч.; Дистанция: 0.994 км; Ср. скорость: 1.000 км/ч; ",
     "", by rw [swm_msg_eval]; decide⟩⟩ <;>
    norm_num [swmT, Workout.get_spent_calories, Workout.get_mean_speed,
      Workout.get_distance, Workout.duration_to_min, LEN_STEP, M_IN_KM,
      MIN_IN_HOUR, pyDiv, COEFF_CALORIE_SWM_1, COEFF_CALORIE_SWM_2,
      Bind.bind, Except.bind, Pure.pure, Except.pure]

/-- Claim C6: Swimming overrides the mean speed to
`length_pool * count_pool / 1000 / duration`, which is independent of the
action count; Running and SportsWalking use the base formula
`get_distance() / duration`. -/
theorem claim_C6 :
    (∀ a d w lp cp : ℚ, d ≠ 0 →
      Workout.get_mean_speed ⟨a, d, w, .swimming lp cp⟩ =
        .ok (lp * cp / 1000 / d)) ∧
    (∀ a1 a2 d w lp cp : ℚ,
      Workout.get_mean_speed ⟨a1, d, w, .swimming lp cp⟩ =
        Workout.get_mean_speed ⟨a2, d, w, .swimming lp cp⟩) ∧
    (∀ a d w : ℚ, d ≠ 0 →
      Workout.get_mean_speed ⟨a, d, w, .running⟩ =
        .ok (Workout.get_distance ⟨a, d, w, .running⟩ / d)) ∧
    (∀ a d w h : ℚ, d ≠ 0 →
      Workout.get_mean_speed ⟨a, d, w, .sportsWalking h⟩ =
        .ok (Workout.get_distance ⟨a, d, w, .sportsWalking h⟩ / d)) := by
  refine ⟨?_, fun a1 a2 d w lp cp => rfl, ?_, ?_⟩
  · intro a d w lp cp hd
    simp [Workout.get_mean_speed, pyDiv, M_IN_KM, hd]
  · intro a d w hd
    simp [Workout.get_mean_speed, pyDiv, hd]
  · intro a d w h hd
    simp [Workout.get_mean_speed, pyDiv, hd]

/-- Witness for C6 at concrete inputs: the sample Swimming and Running
workouts (duration 1). -/
theorem claim_C6_witness :
    Workout.get_mean_speed ⟨720, 1, 80, .swimming 25 40⟩ = .ok (25 * 40 / 1000 / 1) ∧
    Workout.get_mean_speed ⟨15000, 1, 75, .running⟩ =
      .ok (Workout.get_distance ⟨15000, 1, 75, .running⟩ / 1) :=
  ⟨claim_C6.1 720 1 80 25 40 (by norm_num),
   claim_C6.2.2.1 15000 1 75 (by norm_num)⟩

/-- Claim C7: `read_package` fails with the unknown-code error for every
code outside SWM, RUN, WLK (in particular XYZ), and for each of the three
codes with a correctly sized argument list it returns the corresponding
variant. -/
theorem claim_C7 :
    (∀ code : String, code ≠ "SWM" → code ≠ "RUN" → code ≠ "WLK" →
      ∀ data : List ℚ, read_package code data = .error (.unknownCode code)) ∧
    read_package "XYZ" [1, 2, 3] = .error (.unknownCode "XYZ") ∧
    (∀ a d w lp cp : ℚ,
      read_package "SWM" [a, d, w, lp, cp] = .ok ⟨a, d, w, .swimming lp cp⟩) ∧
    (∀ a d w : ℚ, read_package "RUN" [a, d, w] = .ok ⟨a, d, w, .running⟩) ∧
    (∀ a d w h : ℚ,
      read_package "WLK" [a, d, w, h] = .ok ⟨a, d, w, .sportsWalking h⟩) := by
  refine ⟨?_, rfl, fun a d w lp cp => rfl, fun a d w => rfl, fun a d w h => rfl⟩
  intro code h1 h2 h3 data
  simp only [read_package, if_neg h1, if_neg h2, if_neg h3]

/-- Witness for C7 at a concrete input: the code "ABC" is rejected with the
unknown-code error. -/
theorem claim_C7_witness :
    read_package "ABC" ([] : List ℚ) = .error (.unknownCode "ABC") :=
  claim_C7.1 "ABC" (by decide) (by decide) (by decide) []

/-- Claim C8: `get_message` renders exactly the spec's template (labels,
punctuation, three fixed decimal places for each float), and is a pure
function of the `InfoMessage`: equal messages yield equal strings. -/
theorem claim_C8 :
    (∀ m : InfoMessage, m.get_message = spec_render m) ∧
    (∀ m1 m2 : InfoMessage, m1 = m2 → m1.get_message = m2.get_message) :=
  ⟨fun _ => rfl, fun _ _ h => by rw [h]⟩

/-- Witness for C8 at a concrete `InfoMessage`. -/
theorem claim_C8_witness :
    InfoMessage.get_message ⟨"Running", 1, 9.75, 9.75, 699.75⟩ =
      spec_render ⟨"Running", 1, 9.75, 9.75, 699.75⟩ ∧
    InfoMessage.get_message ⟨"Running", 1, 9.75, 9.75, 699.75⟩ =
      InfoMessage.get_message ⟨"Running", 1, 9.75, 9.75, 699.75⟩ :=
  ⟨claim_C8.1 ⟨"Running", 1, 9.75, 9.75, 699.75⟩,
   claim_C8.2 ⟨"Running", 1, 9.75, 9.75, 699.75⟩ ⟨"Running", 1, 9.75, 9.75, 699.75⟩ rfl⟩

/-- Claim C9: `get_spent_calories` on the abstract base `Training` signals
the not-implemented error, and never signals that error on any of the three
concrete variants (which can only fault with `ZeroDivisionError`). -/
theorem claim_C9 :
    (∀ a d w : ℚ, Workout.get_spent_calories ⟨a, d, w, .base⟩ =
      .error (.notImplementedError
        "В Training функция get_spent_calories не определена.")) ∧
    (∀ t : Workout, t.variant ≠ .base → ∀ s : String,
      t.get_spent_calories ≠ .error (.notImplementedError s)) := by
  refine ⟨fun a d w => rfl, ?_⟩
  intro t hne s
  obtain ⟨a, d, w, v⟩ := t
  cases v with
  | base => exact absurd rfl hne
  | running =>
      by_cases hd : d = 0 <;>
        simp [Workout.get_spent_calories, Workout.get_mean_speed, pyDiv, hd,
          Bind.bind, Except.bind, Pure.pure, Except.pure]
  | sportsWalking h =>
      by_cases hd : d = 0 <;> by_cases hh : h = 0 <;>
        simp [Workout.get_spent_calories, Workout.get_mean_speed, pyDiv,
          pyFloorDiv, hd, hh, Bind.bind, Except.bind, Pure.pure, Except.pure]
  | swimming lp cp =>
      by_cases hd : d = 0 <;>
        simp [Workout.get_spent_calories, Workout.get_mean_speed, pyDiv, hd,
          Bind.bind, Except.bind, Pure.pure, Except.pure]

/-- Witness for C9 at concrete inputs: the base class errors, the sample
Running workout never yields the not-implemented error. -/
theorem claim_C9_witness :
    Workout.get_spent_calories ⟨720, 1, 80, .base⟩ =
      .error (.notImplementedError
        "В Training функция get_spent_calories не определена.") ∧
    runT.get_spent_calories ≠
      .error (.notImplementedError
        "В Training функция get_spent_calories не определена.") :=
  ⟨claim_C9.1 720 1 80,
   claim_C9.2 runT (by decide)
     "В Training функция get_spent_calories не определена."⟩

/-- Claim C10: for every concrete variant the calorie computation is
homogeneous of degree 1 in the weight: scaling the weight by any k ≥ 0
scales the computed calories by exactly k (errors are unaffected, since no
divisor involves the weight). -/
theorem claim_C10 :
    ∀ t : Workout, t.variant ≠ .base → ∀ k : ℚ, 0 ≤ k →
      Workout.get_spent_calories { t with wight := k * t.wight } =
        Except.map (fun c => k * c) t.get_spent_calories := by
  intro t hne k hk
  obtain ⟨a, d, w, v⟩ := t
  cases v with
  | base => exact absurd rfl hne
  | running =>
      by_cases hd : d = 0 <;>
        simp [Workout.get_spent_calories, Workout.get_mean_speed,
          Workout.get_distance, Workout.duration_to_min, pyDiv, hd, Except.map,
          Bind.bind, Except.bind, Pure.pure, Except.pure]
      ring
  | sportsWalking h =>
      by_cases hd : d = 0 <;> by_cases hh : h = 0 <;>
        simp [Workout.get_spent_calories, Workout.get_mean_speed,
          Workout.get_distance, Workout.duration_to_min, pyDiv, pyFloorDiv,
          hd, hh, Except.map, Bind.bind, Except.bind, Pure.pure, Except.pure]
      ring
  | swimming lp cp =>
      by_cases hd : d = 0 <;>
        simp [Workout.get_spent_calories, Workout.get_mean_speed,
          Workout.duration_to_min, pyDiv, hd, Except.map,
          Bind.bind, Except.bind, Pure.pure, Except.pure]
      ring

/-- Witness for C10 at a concrete input: doubling the sample Running
workout's weight doubles its calories. -/
theorem claim_C10_witness :
    Workout.get_spent_calories { runT with wight := 2 * runT.wight } =
      Except.map (fun c => 2 * c) runT.get_spent_calories :=
  claim_C10 runT (by decide) 2 (by norm_num)
